import Mathlib

/-!
Verification of the aero-agent container orchestration agent against its
natural-language specification.

The Rust sources (src/aero-agent/src/{runtime_manager.rs, system_setup.rs,
main.rs}) are shallowly embedded: every external effect (process spawn,
filesystem access, firewall call) is replaced by an oracle recorded in a
world structure, and each embedded function returns its result together
with the ordered list of effect events it performs.  Process spawns are
assumed to yield an exit status and captured output except where the
source itself handles a spawn failure.  Routine progress logs at info
level are not modelled; error-level logs that the spec mentions are.
-/

/-- The captured outcome of one CLI invocation: exit status (`success` is
`ExitStatus::success()`), stdout and stderr as (lossily decoded) strings. -/
structure CmdOutput where
  success : Bool
  stdout : String
  stderr : String
deriving Repr, DecidableEq

/-- The agent error type.  `containerError`, `internalError`, `configError`
mirror the `AgentError` variants visible at call sites in the sources
(`errors.rs` itself is not under src/).  `toolMissing` and `decode` are
modelled from the spec: `RuntimeError{kind=ToolMissing}` for a missing CLI
binary and `RuntimeError{kind=Decode}` for malformed JSON on list/stats. -/
inductive AgentError where
  | containerError (text : String)
  | internalError (text : String)
  | configError (text : String)
  | toolMissing (text : String)
  | decode
deriving Repr, DecidableEq

/-- Effect events of the runtime adapter (`runtime_manager.rs`). -/
inductive REvent where
  /-- An invocation `program args...` via `tokio::process::Command`. -/
  | exec (program : String) (args : List String)
  /-- `FirewallManager::allow_port(port, ip)` (opaque collaborator). -/
  | allowPort (port : Nat) (ip : String)
  /-- An error-level log line. -/
  | logError (msg : String)
deriving Repr, DecidableEq

/-- Whether an event is the firewall allow-port call. -/
def REvent.isAllowPort : REvent → Bool
  | .allowPort _ _ => true
  | _ => false

/-- The inspect format template
`{{range .NetworkSettings.Networks}}{{.IPAddress}}{{end}}`. -/
def ipTemplate : String :=
  "\x7b\x7brange .NetworkSettings.Networks\x7d\x7d\x7b\x7b.IPAddress\x7d\x7d\x7b\x7bend\x7d\x7d"

/-- Arguments of the `nerdctl inspect` call made by
`ContainerdRuntime::get_container_ip`. -/
def inspectIpArgs (ns container_id : String) : List String :=
  ["--namespace", ns, "inspect", container_id, "--format", ipTemplate]

/-- Rust's `str::trim`: drop whitespace from both ends.  Written by
structural recursion over the character list so that it evaluates by
kernel reduction. -/
def rustTrim (s : String) : String :=
  String.mk (((s.data.dropWhile Char.isWhitespace).reverse.dropWhile
    Char.isWhitespace).reverse)

/-- `ContainerdRuntime::get_container_ip`: runs `nerdctl inspect` with the
IP template; nonzero exit yields `ContainerError("Failed to get container IP")`,
success yields the trimmed stdout.  The oracle `res` is the spawn outcome:
`.error e` models an I/O failure of `.output()` (CLI missing), which the
`?` operator propagates. -/
def get_container_ip (ns container_id : String) (res : Except String CmdOutput) :
    Except AgentError String × List REvent :=
  let ev := [REvent.exec "nerdctl" (inspectIpArgs ns container_id)]
  match res with
  | .error e => (.error (.toolMissing e), ev)
  | .ok out =>
    if out.success then (.ok (rustTrim out.stdout), ev)
    else (.error (.containerError "Failed to get container IP"), ev)

/-- The argument list assembled by `ContainerdRuntime::create_container`,
mirroring the source line by line (the env map is embedded as an
association list in iteration order). -/
def create_args (ns container_id image startup_command : String)
    (env : List (String × String)) (memory_mb cpu_cores : Nat)
    (data_dir : String) (port : Nat) (network_mode : Option String) :
    List String :=
  ["--namespace", ns, "run"]
  ++ ["--memory=" ++ toString memory_mb ++ "m"]
  ++ ["--cpus", toString cpu_cores]
  ++ ["-v", data_dir ++ ":/data"]
  ++ ["-w", "/data"]
  ++ (match network_mode with
      | some network =>
        if network = "host" then ["--network", "host"]
        else if network ≠ "bridge" then ["--network", network]
        else []
      | none => [])
  ++ (if network_mode.isNone
        || (network_mode.isSome && network_mode.getD "" ≠ "host") then
        ["-p", "0.0.0.0:" ++ toString port ++ ":" ++ toString port]
      else [])
  ++ env.flatMap (fun kv => ["-e", kv.1 ++ "=" ++ kv.2])
  ++ ["--name", container_id, "-d", image]
  ++ (if startup_command ≠ "" then ["sh", "-c", startup_command] else [])

/-- Oracles consumed by `create_container`: the `nerdctl run` spawn outcome,
the `nerdctl inspect` spawn outcome, and the firewall gate outcome. -/
structure CreateWorld where
  runResult : Except String CmdOutput
  inspectResult : Except String CmdOutput
  firewallResult : Except String Unit

/-- `ContainerdRuntime::create_container`: builds the `nerdctl run`
invocation, maps a spawn failure or nonzero exit to `ContainerError`,
otherwise takes the trimmed stdout as the full container id, inspects the
container IP (falling back to "0.0.0.0" on failure), attempts the firewall
allow-port call, logs but swallows its failure, and returns the id. -/
def create_container (ns container_id image startup_command : String)
    (env : List (String × String)) (memory_mb cpu_cores : Nat)
    (data_dir : String) (port : Nat) (network_mode : Option String)
    (w : CreateWorld) : Except AgentError String × List REvent :=
  let args := create_args ns container_id image startup_command env
      memory_mb cpu_cores data_dir port network_mode
  let runEv := REvent.exec "nerdctl" args
  match w.runResult with
  | .error e =>
    (.error (.containerError ("Failed to create container: " ++ e)), [runEv])
  | .ok output =>
    if output.success then
      let container_full_id := rustTrim output.stdout
      let (ipRes, ipEvs) := get_container_ip ns container_id w.inspectResult
      let container_ip := match ipRes with
        | .ok ip => ip
        | .error _ => "0.0.0.0"
      let fwEvs := match w.firewallResult with
        | .ok _ => []
        | .error e => [REvent.logError ("Failed to configure firewall: " ++ e)]
      (.ok container_full_id,
        [runEv] ++ ipEvs ++ [REvent.allowPort port container_ip] ++ fwEvs)
    else
      (.error (.containerError
        ("Container creation failed: " ++ output.stderr)), [runEv])

/-- The argument list of `create_container` as the specification words it:
memory and cpu limits, the `/data` volume and workdir, the network flag
(`host` for host mode, the network name for a named network, nothing for
bridge or unspecified), the port mapping whenever the mode is not `host`,
one `-e k=v` per env entry, name, detached flag, image, and a trailing
`sh -c startup` exactly when the startup command is non-empty.  The
namespace preamble and the name/image positionals accompany every
invocation (spec 4.A and 3). -/
def create_args_spec (ns container_id image startup_command : String)
    (env : List (String × String)) (memory_mb cpu_cores : Nat)
    (data_dir : String) (port : Nat) (network_mode : Option String) :
    List String :=
  ["--namespace", ns, "run",
   "--memory=" ++ toString memory_mb ++ "m",
   "--cpus", toString cpu_cores,
   "-v", data_dir ++ ":/data",
   "-w", "/data"]
  ++ (match network_mode with
      | some network =>
        if network = "host" then ["--network", "host"]
        else if network = "bridge" then []
        else ["--network", network]
      | none => [])
  ++ (if network_mode ≠ some "host" then
        ["-p", "0.0.0.0:" ++ toString port ++ ":" ++ toString port]
      else [])
  ++ env.flatMap (fun kv => ["-e", kv.1 ++ "=" ++ kv.2])
  ++ ["--name", container_id, "-d", image]
  ++ (if startup_command ≠ "" then ["sh", "-c", startup_command] else [])

/-- `ContainerdRuntime::start_container` on the CLI outcome: ok on success,
`ContainerError` carrying stderr on nonzero exit. -/
def start_container (out : CmdOutput) : Except AgentError Unit :=
  if out.success then .ok ()
  else .error (.containerError ("Failed to start container: " ++ out.stderr))

/-- `ContainerdRuntime::stop_container` (`stop -t {grace} {id}`). -/
def stop_container (out : CmdOutput) : Except AgentError Unit :=
  if out.success then .ok ()
  else .error (.containerError ("Failed to stop container: " ++ out.stderr))

/-- `ContainerdRuntime::kill_container` (`kill -s {signal} {id}`). -/
def kill_container (out : CmdOutput) : Except AgentError Unit :=
  if out.success then .ok ()
  else .error (.containerError ("Failed to kill container: " ++ out.stderr))

/-- `ContainerdRuntime::remove_container` (`rm -f {id}`). -/
def remove_container (out : CmdOutput) : Except AgentError Unit :=
  if out.success then .ok ()
  else .error (.containerError ("Failed to remove container: " ++ out.stderr))

/-- `ContainerdRuntime::get_logs`: stdout blob on success, `ContainerError`
carrying stderr on nonzero exit. -/
def get_logs (out : CmdOutput) : Except AgentError String :=
  if out.success then .ok out.stdout
  else .error (.containerError ("Failed to get logs: " ++ out.stderr))

/-- `ContainerdRuntime::exec`: stdout on success, `ContainerError` carrying
stderr on nonzero exit. -/
def exec_in_container (out : CmdOutput) : Except AgentError String :=
  if out.success then .ok out.stdout
  else .error (.containerError ("Exec failed: " ++ out.stderr))

/-- A container summary deserialized from one line of `nerdctl ps` output
(struct `ContainerInfo`). -/
structure ContainerInfo where
  id : String
  names : String
  status : String
  command : String
  image : String
deriving Repr, DecidableEq

/-- A stats sample deserialized from one line of `nerdctl stats` output
(struct `ContainerStats`). -/
structure ContainerStats where
  container_id : String
  container_name : String
  cpu_percent : String
  memory_usage : String
  net_io : String
  block_io : String
deriving Repr, DecidableEq

/-- Split a character list at every occurrence of `c` (the splitter used
to model newline-delimited output; structural recursion so that it
evaluates by kernel reduction). -/
def splitOnChar (c : Char) : List Char → List (List Char)
  | [] => [[]]
  | x :: xs =>
    let r := splitOnChar c xs
    if x = c then [] :: r
    else
      match r with
      | [] => [[x]]
      | piece :: rest => (x :: piece) :: rest

/-- Rust's `str::lines()`: split on newlines, with a trailing final newline
not producing an extra empty line (`\r\n` handling is not modelled). -/
def rustLines (s : String) : List String :=
  let parts := (splitOnChar (Char.ofNat 10) s.data).map String.mk
  if parts.getLast? = some "" then parts.dropLast else parts

/-- The line loop of `ContainerdRuntime::list_containers`: for each line,
skip it if it trims to empty, otherwise deserialize it (the `parse` oracle
stands for `serde_json::from_str::<ContainerInfo>`; `none` models a serde
error, which the `?` operator converts to a decode error) and push the
result in order. -/
def collect_lines (parse : String → Option ContainerInfo) :
    List String → Except AgentError (List ContainerInfo)
  | [] => .ok []
  | line :: rest =>
    if rustTrim line = "" then collect_lines parse rest
    else
      match parse line with
      | none => .error .decode
      | some c =>
        match collect_lines parse rest with
        | .ok cs => .ok (c :: cs)
        | .error e => .error e

/-- `ContainerdRuntime::list_containers` on the CLI outcome: nonzero exit
yields the fixed message `"Failed to list containers"`; otherwise the
newline-delimited stdout is parsed line by line. -/
def list_containers (parse : String → Option ContainerInfo)
    (out : CmdOutput) : Except AgentError (List ContainerInfo) :=
  if out.success then collect_lines parse (rustLines out.stdout)
  else .error (.containerError "Failed to list containers")

/-- `ContainerdRuntime::get_stats` on the CLI outcome: nonzero exit yields
the fixed message `"Failed to get stats"`; otherwise the FIRST line of
stdout (blank or not) is deserialized (`parse` stands for
`serde_json::from_str::<ContainerStats>`), a missing first line yields
`"No stats returned"`, and a failed deserialization yields a decode
error. -/
def get_stats (parse : String → Option ContainerStats)
    (out : CmdOutput) : Except AgentError ContainerStats :=
  if out.success then
    match (rustLines out.stdout).head? with
    | none => .error (.containerError "No stats returned")
    | some first_line =>
      match parse first_line with
      | none => .error .decode
      | some stats => .ok stats
  else .error (.containerError "Failed to get stats")

/-- The stats operation as the specification words it: the first NON-EMPTY
line of the newline-delimited output is deserialized, blank lines being
skipped; if no line remains, an error is returned. -/
def get_stats_spec (parse : String → Option ContainerStats)
    (out : CmdOutput) : Except AgentError ContainerStats :=
  if out.success then
    match ((rustLines out.stdout).filter (fun l => rustTrim l ≠ "")).head? with
    | none => .error (.containerError "No stats returned")
    | some first_line =>
      match parse first_line with
      | none => .error .decode
      | some stats => .ok stats
  else .error (.containerError "Failed to get stats")

/-- Whether `pre` is a prefix of `l` (structural, kernel-reducible). -/
def prefixOfList (pre l : List Char) : Bool :=
  match pre, l with
  | [], _ => true
  | _ :: _, [] => false
  | a :: as, b :: bs => a = b && prefixOfList as bs

/-- Whether `pat` occurs (contiguously) in `l`. -/
def occursIn (pat : List Char) : List Char → Bool
  | [] => pat.isEmpty
  | c :: rest => prefixOfList pat (c :: rest) || occursIn pat rest

/-- `true` iff `pat` occurs as a substring of `s`. -/
def containsSub (s pat : String) : Bool :=
  occursIn pat.data s.data

/-- Effect events of the host provisioner (`system_setup.rs`). -/
inductive SEvent where
  /-- A `which {cmd}` probe. -/
  | which (cmd : String)
  /-- An invocation `program args...` via `std::process::Command`. -/
  | run (program : String) (args : List String)
  /-- `fs::create_dir_all(path)`. -/
  | createDirAll (path : String)
  /-- A `Path::new(path).exists()` check. -/
  | pathCheck (path : String)
  /-- `fs::write(path, content)`. -/
  | writeFile (path : String) (content : String)
  /-- A `pgrep -f {pat}` probe. -/
  | pgrep (pat : String)
  /-- Detached `Command::spawn` of `program args...`. -/
  | spawnProc (program : String) (args : List String)
  /-- `tokio::time::sleep` of `n` seconds. -/
  | sleepSecs (n : Nat)
deriving Repr, DecidableEq

/-- `SystemSetup::run_command`: ok on exit success, otherwise an error
carrying the command's stderr. -/
def runCommand (out : CmdOutput) : Except String Unit :=
  if out.success then .ok ()
  else .error ("Command failed: " ++ out.stderr)

/-- The probe table of `SystemSetup::detect_package_manager`:
(binary probed via `which`, family name returned). -/
def managers : List (String × String) :=
  [("apt-get", "apt"), ("yum", "yum"), ("dnf", "dnf"),
   ("pacman", "pacman"), ("zypper", "zypper")]

/-- The probe loop of `detect_package_manager` over a manager table:
return the family of the first probe whose binary is found. -/
def detect_loop (whichOk : String → Bool) :
    List (String × String) → Except String String × List SEvent
  | [] => (.error "No supported package manager found", [])
  | m :: rest =>
    if whichOk m.fst then (.ok m.snd, [SEvent.which m.fst])
    else
      let (r, evs) := detect_loop whichOk rest
      (r, SEvent.which m.fst :: evs)

/-- `SystemSetup::detect_package_manager`: probe the five managers in
table order; none found is an error. -/
def detect_package_manager (whichOk : String → Bool) :
    Except String String × List SEvent :=
  detect_loop whichOk managers

/-- Download URL of the pinned nerdctl release for the host
architecture. -/
def nerdctlUrl (arch : String) : String :=
  "https://github.com/containerd/nerdctl/releases/download/v1.7.6/nerdctl-1.7.6-linux-"
  ++ arch ++ ".tar.gz"

/-- Oracles consumed by `SystemSetup::ensure_container_runtime`: the two
`which nerdctl` probes (before and after the install attempt), the
package-manager command outcomes, the tarball download outcome, and the
host architecture. -/
structure RuntimeWorld where
  nerdctlFound1 : Bool
  updateOut : CmdOutput
  installOut : CmdOutput
  nerdctlFound2 : Bool
  downloadOut : CmdOutput
  arch : String

/-- `SystemSetup::install_nerdctl`: one `sh -c "curl … | tar …"`
invocation via `run_command`. -/
def install_nerdctl (w : RuntimeWorld) : Except String Unit × List SEvent :=
  (runCommand w.downloadOut,
   [SEvent.run "sh"
     ["-c", "curl -fsSL " ++ nerdctlUrl w.arch ++ " | tar -xz -C /usr/local/bin nerdctl"]])

/-- `SystemSetup::ensure_container_runtime`: if `nerdctl` is on the path,
done; otherwise install containerd via the detected family (apt: update
then install; yum/dnf: install; pacman: -S --noconfirm; anything else is
unsupported), then install nerdctl standalone if it is still missing. -/
def ensure_container_runtime (pkg_manager : String) (w : RuntimeWorld) :
    Except String Unit × List SEvent :=
  let e1 := SEvent.which "nerdctl"
  if w.nerdctlFound1 then (.ok (), [e1])
  else
    let (instRes, instEvs) :=
      if pkg_manager = "apt" then
        match runCommand w.updateOut with
        | .error e => (Except.error e, [SEvent.run "apt-get" ["update", "-qq"]])
        | .ok _ =>
          (runCommand w.installOut,
           [SEvent.run "apt-get" ["update", "-qq"],
            SEvent.run "apt-get" ["install", "-y", "-qq", "containerd"]])
      else if pkg_manager = "yum" ∨ pkg_manager = "dnf" then
        (runCommand w.installOut,
         [SEvent.run pkg_manager ["install", "-y", "containerd"]])
      else if pkg_manager = "pacman" then
        (runCommand w.installOut,
         [SEvent.run "pacman" ["-S", "--noconfirm", "containerd"]])
      else
        (Except.error
          ("Please install containerd/nerdctl manually for " ++ pkg_manager), [])
    match instRes with
    | .error e => (.error e, e1 :: instEvs)
    | .ok _ =>
      let e2 := SEvent.which "nerdctl"
      if w.nerdctlFound2 then (.ok (), e1 :: instEvs ++ [e2])
      else
        let (r, evs) := install_nerdctl w
        (r, e1 :: instEvs ++ [e2] ++ evs)

/-- The shell pipeline probing the default-route interface. -/
def routeCmd : String :=
  "ip route show default | awk \x27/default/ \x7bprint $5\x7d\x27 | head -n1"

/-- The shell pipeline probing the first non-loopback interface. -/
def linkCmd : String :=
  "ip link show | awk -F: \x27/^[0-9]+: [^lo]/ \x7bprint $2\x7d\x27 | head -n1 | xargs"

/-- Oracles consumed by `SystemSetup::setup_cni_networking`: the
`create_dir_all` outcome, the config-file existence check, the two
interface-probe command outputs, and the `fs::write` outcome. -/
structure CniWorld where
  mkdirNetD : Except String Unit
  configExists : Bool
  routeOut : CmdOutput
  linkOut : CmdOutput
  writeConfig : Except String Unit

/-- `SystemSetup::detect_network_interface`: take the trimmed stdout of the
default-route probe if the command succeeded and it is non-empty, else of
the link probe, else fail. -/
def detect_network_interface (w : CniWorld) :
    Except String String × List SEvent :=
  let e1 := SEvent.run "sh" ["-c", routeCmd]
  if w.routeOut.success && rustTrim w.routeOut.stdout ≠ "" then
    (.ok (rustTrim w.routeOut.stdout), [e1])
  else
    let e2 := SEvent.run "sh" ["-c", linkCmd]
    if w.linkOut.success && rustTrim w.linkOut.stdout ≠ "" then
      (.ok (rustTrim w.linkOut.stdout), [e1, e2])
    else (.error "Could not detect network interface", [e1, e2])

/-- The macvlan + DHCP-IPAM CNI configuration written for the detected
interface (CNI spec version 1.0.0). -/
def cniConfigContent (interface : String) : String :=
  "\x7b\n  \"cniVersion\": \"1.0.0\",\n  \"name\": \"mc-lan\",\n  \"plugins\": [\n    \x7b\n      \"type\": \"macvlan\",\n      \"master\": \"" ++ interface ++ "\",\n      \"mode\": \"bridge\",\n      \"ipam\": \x7b\n        \"type\": \"dhcp\"\n      \x7d\n    \x7d\n  ]\n\x7d"

/-- `SystemSetup::setup_cni_networking`: ensure `/etc/cni/net.d` exists;
if `mc-lan.conflist` is already present return at once; otherwise detect
the primary interface and write the macvlan config. -/
def setup_cni_networking (w : CniWorld) : Except String Unit × List SEvent :=
  match w.mkdirNetD with
  | .error e => (.error e, [SEvent.createDirAll "/etc/cni/net.d"])
  | .ok _ =>
    let pre := [SEvent.createDirAll "/etc/cni/net.d",
                SEvent.pathCheck "/etc/cni/net.d/mc-lan.conflist"]
    if w.configExists then (.ok (), pre)
    else
      match detect_network_interface w with
      | (.error e, evs) => (.error e, pre ++ evs)
      | (.ok interface, evs) =>
        let wEv := SEvent.writeFile "/etc/cni/net.d/mc-lan.conflist"
          (cniConfigContent interface)
        match w.writeConfig with
        | .error e => (.error e, pre ++ evs ++ [wEv])
        | .ok _ => (.ok (), pre ++ evs ++ [wEv])

/-- Download URL of the pinned CNI plugins release for the host
architecture. -/
def cniPluginsUrl (arch : String) : String :=
  "https://github.com/containernetworking/plugins/releases/download/v1.4.1/cni-plugins-linux-"
  ++ arch ++ "-v1.4.1.tgz"

/-- The systemd unit written for the CNI DHCP daemon. -/
def dhcpServiceContent : String :=
  "[Unit]\nDescription=CNI DHCP Daemon for Container Networking\nDocumentation=https://github.com/containernetworking/plugins\nAfter=network.target\n\n[Service]\nType=simple\nExecStart=/opt/cni/bin/dhcp daemon\nRestart=always\nRestartSec=10\nStandardOutput=journal\nStandardError=journal\n\n[Install]\nWantedBy=multi-user.target\n"

/-- Oracles consumed by `SystemSetup::ensure_dhcp_daemon`: the first and
second `pgrep -f "dhcp daemon"` probes, the plugin-binary existence check,
the plugin-install outcomes, the systemd path outcomes, the detached
spawn outcome, and the host architecture. -/
structure DhcpWorld where
  running1 : Bool
  dhcpBinExists : Bool
  mkdirCniBin : Except String Unit
  pluginsDownload : CmdOutput
  systemctlFound : Bool
  writeService : Except String Unit
  daemonReload : CmdOutput
  enableService : CmdOutput
  startService : CmdOutput
  spawnDaemon : Except String Unit
  running2 : Bool
  arch : String

/-- `SystemSetup::install_cni_plugins`: ensure `/opt/cni/bin` exists, then
one `sh -c "curl … | tar …"` invocation via `run_command`. -/
def install_cni_plugins (w : DhcpWorld) : Except String Unit × List SEvent :=
  match w.mkdirCniBin with
  | .error e => (.error e, [SEvent.createDirAll "/opt/cni/bin"])
  | .ok _ =>
    (runCommand w.pluginsDownload,
     [SEvent.createDirAll "/opt/cni/bin",
      SEvent.run "sh"
        ["-c", "curl -fsSL " ++ cniPluginsUrl w.arch ++ " | tar -xz -C /opt/cni/bin"]])

/-- `SystemSetup::setup_dhcp_systemd_service`: fail if `systemctl` is not
on the path; otherwise write the unit file, then `daemon-reload`,
`enable`, `start`, each via `run_command`. -/
def setup_dhcp_systemd_service (w : DhcpWorld) :
    Except String Unit × List SEvent :=
  let e1 := SEvent.which "systemctl"
  if !w.systemctlFound then (.error "systemd not available", [e1])
  else
    let wEv := SEvent.writeFile "/etc/systemd/system/cni-dhcp.service"
      dhcpServiceContent
    match w.writeService with
    | .error e => (.error e, [e1, wEv])
    | .ok _ =>
      let r1 := SEvent.run "systemctl" ["daemon-reload"]
      match runCommand w.daemonReload with
      | .error e => (.error e, [e1, wEv, r1])
      | .ok _ =>
        let r2 := SEvent.run "systemctl" ["enable", "cni-dhcp.service"]
        match runCommand w.enableService with
        | .error e => (.error e, [e1, wEv, r1, r2])
        | .ok _ =>
          let r3 := SEvent.run "systemctl" ["start", "cni-dhcp.service"]
          match runCommand w.startService with
          | .error e => (.error e, [e1, wEv, r1, r2, r3])
          | .ok _ => (.ok (), [e1, wEv, r1, r2, r3])

/-- `SystemSetup::ensure_dhcp_daemon`: if a `dhcp daemon` process is
already running return at once; otherwise install the CNI plugins when
the binary is missing, prefer a systemd unit (its failure is swallowed),
else spawn the daemon directly, sleep two seconds and re-probe. -/
def ensure_dhcp_daemon (w : DhcpWorld) : Except String Unit × List SEvent :=
  let e1 := SEvent.pgrep "dhcp daemon"
  if w.running1 then (.ok (), [e1])
  else
    let pre := [e1, SEvent.pathCheck "/opt/cni/bin/dhcp"]
    let (instRes, instEvs) :=
      if w.dhcpBinExists then (Except.ok (), ([] : List SEvent))
      else install_cni_plugins w
    match instRes with
    | .error e => (.error e, pre ++ instEvs)
    | .ok _ =>
      let (sysRes, sysEvs) := setup_dhcp_systemd_service w
      match sysRes with
      | .ok _ => (.ok (), pre ++ instEvs ++ sysEvs)
      | .error _ =>
        let sEv := SEvent.spawnProc "/opt/cni/bin/dhcp" ["daemon"]
        match w.spawnDaemon with
        | .error e => (.error e, pre ++ instEvs ++ sysEvs ++ [sEv])
        | .ok _ =>
          let evs := pre ++ instEvs ++ sysEvs
            ++ [sEv, SEvent.sleepSecs 2, SEvent.pgrep "dhcp daemon"]
          if w.running2 then (.ok (), evs)
          else (.error "DHCP daemon failed to start", evs)

/-- Oracles consumed by `SystemSetup::initialize`: the `which` oracle used
by package-manager detection, and the per-step worlds. -/
structure SetupWorld where
  whichOk : String → Bool
  rt : RuntimeWorld
  cni : CniWorld
  dhcp : DhcpWorld

/-- `SystemSetup::initialize`: detect the package manager, ensure the
container runtime, set up CNI networking, ensure the DHCP daemon, in that
order, each step's error aborting the sequence (`?`). -/
def initializeSystem (w : SetupWorld) : Except String Unit × List SEvent :=
  let (d, e1) := detect_package_manager w.whichOk
  match d with
  | .error e => (.error e, e1)
  | .ok pkg_manager =>
    let (r2, e2) := ensure_container_runtime pkg_manager w.rt
    match r2 with
    | .error e => (.error e, e1 ++ e2)
    | .ok _ =>
      let (r3, e3) := setup_cni_networking w.cni
      match r3 with
      | .error e => (.error e, e1 ++ e2 ++ e3)
      | .ok _ =>
        let (r4, e4) := ensure_dhcp_daemon w.dhcp
        (r4, e1 ++ e2 ++ e3 ++ e4)

/-- Events of the `main` entry point and `AeroAgent::run` (`main.rs`). -/
inductive MainEvent where
  /-- Loading the configuration (`AgentConfig::from_file` / `from_env`). -/
  | loadConfig
  /-- The awaited completion of `SystemSetup::initialize`. -/
  | provision
  /-- A warn-level log line. -/
  | warn (msg : String)
  /-- `AeroAgent::new` constructing the agent state. -/
  | createAgent
  /-- `tokio::spawn` of the websocket `connect_and_listen` task. -/
  | spawnWebsocketTask
  /-- `tokio::spawn` of the telemetry `start_health_monitoring` task. -/
  | spawnHealthTask
  /-- `tokio::spawn` of the local HTTP server task. -/
  | spawnHttpTask
deriving Repr, DecidableEq

/-- Oracles consumed by `main`: the configuration-load outcome and the
provisioning outcome. -/
structure MainWorld where
  configResult : Except String Unit
  provisionResult : Except String Unit

/-- `AeroAgent::run`: spawns the websocket, health-monitoring and HTTP
tasks (then selects over them) and returns ok. -/
def agentRunEvents : List MainEvent :=
  [MainEvent.spawnWebsocketTask, MainEvent.spawnHealthTask,
   MainEvent.spawnHttpTask]

/-- `main`: load the configuration (failure is fatal), run
`SystemSetup::initialize` and on failure log two warnings and continue,
construct the agent (`AeroAgent::new`, which always succeeds) and run
it. -/
def mainProgram (w : MainWorld) : Except AgentError Unit × List MainEvent :=
  match w.configResult with
  | .error e => (.error (.configError e), [MainEvent.loadConfig])
  | .ok _ =>
    let provEvs := match w.provisionResult with
      | .ok _ => [MainEvent.provision]
      | .error e =>
        [MainEvent.provision,
         MainEvent.warn ("System setup encountered issues: " ++ e),
         MainEvent.warn "Continuing with existing configuration..."]
    (.ok (), MainEvent.loadConfig :: provEvs
      ++ [MainEvent.createAgent] ++ agentRunEvents)

/-- C1: the create operation invokes the container CLI with exactly the
flags the spec lists — `--memory={mib}m`, `--cpus {n}`, volume
`{data_dir}:/data`, workdir `/data`, the network flag (`host` for host
mode, the network name for a named network, none for bridge or
unspecified), the port mapping `0.0.0.0:{p}:{p}` whenever the mode is not
`host`, one `-e k=v` per env entry, detached mode, and a trailing
`sh -c {startup}` iff the startup command is non-empty — and on success
returns the trimmed stdout as the full container id. -/
theorem c1_create_flags
    (ns container_id image startup_command : String)
    (env : List (String × String)) (memory_mb cpu_cores : Nat)
    (data_dir : String) (port : Nat) (network_mode : Option String)
    (w : CreateWorld) (out : CmdOutput) :
    create_args ns container_id image startup_command env memory_mb
        cpu_cores data_dir port network_mode
      = create_args_spec ns container_id image startup_command env memory_mb
        cpu_cores data_dir port network_mode
    ∧ (w.runResult = .ok out → out.success = true →
        (create_container ns container_id image startup_command env memory_mb
            cpu_cores data_dir port network_mode w).fst
          = .ok (rustTrim out.stdout)) := by
  constructor
  · cases network_mode with
    | none => simp [create_args, create_args_spec]
    | some n =>
      by_cases h1 : n = "host"
      · subst h1; simp [create_args, create_args_spec]
      · by_cases h2 : n = "bridge"
        · subst h2; simp [create_args, create_args_spec]
        · simp [create_args, create_args_spec, h1, h2]
  · intro h1 h2
    simp [create_container, h1, h2]

/-- Witness for `c1_create_flags` at the spec's literal create scenario. -/
theorem c1_create_flags_witness :
    (({ runResult := .ok ⟨true, "abc123\n", ""⟩,
        inspectResult := .ok ⟨true, "10.4.0.9\n", ""⟩,
        firewallResult := .ok () } : CreateWorld).runResult
        = .ok ⟨true, "abc123\n", ""⟩
      ∧ (⟨true, "abc123\n", ""⟩ : CmdOutput).success = true)
    ∧ (create_container "moby" "srv-1" "alpine:3" "" [("EULA", "true")]
        512 1 "/var/srv-1" 25565 (some "bridge")
        { runResult := .ok ⟨true, "abc123\n", ""⟩,
          inspectResult := .ok ⟨true, "10.4.0.9\n", ""⟩,
          firewallResult := .ok () }).fst = .ok "abc123" := by
  refine ⟨⟨rfl, rfl⟩, ?_⟩
  have h := (c1_create_flags "moby" "srv-1" "alpine:3" "" [("EULA", "true")]
    512 1 "/var/srv-1" 25565 (some "bridge")
    { runResult := .ok ⟨true, "abc123\n", ""⟩,
      inspectResult := .ok ⟨true, "10.4.0.9\n", ""⟩,
      firewallResult := .ok () } ⟨true, "abc123\n", ""⟩).2 rfl rfl
  exact h.trans (congrArg Except.ok (by decide))

/-- C2: on every successful create the firewall allow-port call is
attempted exactly once, after the IP inspection; a firewall failure only
adds an error log line and is never propagated: create returns the
container id either way and no rollback (no further CLI invocation)
occurs. -/
theorem c2_firewall_once
    (ns container_id image startup_command : String)
    (env : List (String × String)) (memory_mb cpu_cores : Nat)
    (data_dir : String) (port : Nat) (network_mode : Option String)
    (w : CreateWorld) (out : CmdOutput)
    (hrun : w.runResult = .ok out) (hok : out.success = true) :
    (create_container ns container_id image startup_command env memory_mb
        cpu_cores data_dir port network_mode w).fst = .ok (rustTrim out.stdout)
    ∧ (((create_container ns container_id image startup_command env memory_mb
        cpu_cores data_dir port network_mode w).snd).filter
          REvent.isAllowPort).length = 1
    ∧ ∃ ip, (create_container ns container_id image startup_command env
        memory_mb cpu_cores data_dir port network_mode w).snd =
        [REvent.exec "nerdctl" (create_args ns container_id image
           startup_command env memory_mb cpu_cores data_dir port network_mode),
         REvent.exec "nerdctl" (inspectIpArgs ns container_id),
         REvent.allowPort port ip]
        ++ (match w.firewallResult with
            | .ok _ => []
            | .error e =>
              [REvent.logError ("Failed to configure firewall: " ++ e)]) := by
  have key : ∃ ip, create_container ns container_id image startup_command env
      memory_mb cpu_cores data_dir port network_mode w =
      (.ok (rustTrim out.stdout),
       [REvent.exec "nerdctl" (create_args ns container_id image
          startup_command env memory_mb cpu_cores data_dir port network_mode),
        REvent.exec "nerdctl" (inspectIpArgs ns container_id),
        REvent.allowPort port ip]
       ++ (match w.firewallResult with
           | .ok _ => []
           | .error e =>
             [REvent.logError ("Failed to configure firewall: " ++ e)])) := by
    rcases hi : w.inspectResult with e2 | o
    · exact ⟨"0.0.0.0", by
        rcases hfw : w.firewallResult with e3 | u <;>
          simp [create_container, get_container_ip, hrun, hok, hi, hfw]⟩
    · cases hos : o.success
      · exact ⟨"0.0.0.0", by
          rcases hfw : w.firewallResult with e3 | u <;>
            simp [create_container, get_container_ip, hrun, hok, hi, hos, hfw]⟩
      · exact ⟨rustTrim o.stdout, by
          rcases hfw : w.firewallResult with e3 | u <;>
            simp [create_container, get_container_ip, hrun, hok, hi, hos, hfw]⟩
  rcases key with ⟨ip, hc⟩
  refine ⟨by rw [hc], ?_, ⟨ip, by rw [hc]⟩⟩
  rw [hc]
  rcases w.firewallResult with e3 | u <;> simp [REvent.isAllowPort]

/-- Witness for `c2_firewall_once`: a concrete create whose firewall call
fails. -/
theorem c2_firewall_once_witness :
    (({ runResult := .ok ⟨true, "deadbeef\n", ""⟩,
        inspectResult := .ok ⟨true, "10.4.0.9\n", ""⟩,
        firewallResult := .error "nft: command not found" } :
          CreateWorld).runResult = .ok ⟨true, "deadbeef\n", ""⟩
      ∧ (⟨true, "deadbeef\n", ""⟩ : CmdOutput).success = true)
    ∧ (create_container "moby" "srv-1" "alpine:3" "" [] 512 1 "/var/srv-1"
          25565 (some "bridge")
          { runResult := .ok ⟨true, "deadbeef\n", ""⟩,
            inspectResult := .ok ⟨true, "10.4.0.9\n", ""⟩,
            firewallResult := .error "nft: command not found" }).fst
        = .ok "deadbeef"
    ∧ ((create_container "moby" "srv-1" "alpine:3" "" [] 512 1 "/var/srv-1"
          25565 (some "bridge")
          { runResult := .ok ⟨true, "deadbeef\n", ""⟩,
            inspectResult := .ok ⟨true, "10.4.0.9\n", ""⟩,
            firewallResult := .error "nft: command not found" }).snd.filter
          REvent.isAllowPort).length = 1 := by
  have h := c2_firewall_once "moby" "srv-1" "alpine:3" "" [] 512 1
    "/var/srv-1" 25565 (some "bridge")
    { runResult := .ok ⟨true, "deadbeef\n", ""⟩,
      inspectResult := .ok ⟨true, "10.4.0.9\n", ""⟩,
      firewallResult := .error "nft: command not found" }
    ⟨true, "deadbeef\n", ""⟩ rfl rfl
  exact ⟨⟨rfl, rfl⟩, h.1.trans (congrArg Except.ok (by decide)), h.2.1⟩

/-- C10: when the IP inspection fails (spawn error or nonzero exit), a
successful create still attempts the firewall call, with the literal IP
"0.0.0.0". -/
theorem c10_ip_fallback
    (ns container_id image startup_command : String)
    (env : List (String × String)) (memory_mb cpu_cores : Nat)
    (data_dir : String) (port : Nat) (network_mode : Option String)
    (w : CreateWorld) (out : CmdOutput)
    (hrun : w.runResult = .ok out) (hok : out.success = true)
    (hip : (∃ e, w.inspectResult = .error e)
      ∨ (∃ o, w.inspectResult = .ok o ∧ o.success = false)) :
    REvent.allowPort port "0.0.0.0" ∈
      (create_container ns container_id image startup_command env memory_mb
        cpu_cores data_dir port network_mode w).snd := by
  rcases hip with ⟨e, hi⟩ | ⟨o, hi, ho⟩
  · simp [create_container, get_container_ip, hrun, hok, hi]
  · simp [create_container, get_container_ip, hrun, hok, hi, ho]

/-- Witness for `c10_ip_fallback`: inspect exits nonzero, firewall called
with "0.0.0.0". -/
theorem c10_ip_fallback_witness :
    (({ runResult := .ok ⟨true, "deadbeef\n", ""⟩,
        inspectResult := .ok ⟨false, "", "no such container"⟩,
        firewallResult := .ok () } : CreateWorld).runResult
        = .ok ⟨true, "deadbeef\n", ""⟩
      ∧ (⟨true, "deadbeef\n", ""⟩ : CmdOutput).success = true
      ∧ ({ runResult := .ok ⟨true, "deadbeef\n", ""⟩,
           inspectResult := .ok ⟨false, "", "no such container"⟩,
           firewallResult := .ok () } : CreateWorld).inspectResult
          = .ok ⟨false, "", "no such container"⟩
      ∧ (⟨false, "", "no such container"⟩ : CmdOutput).success = false)
    ∧ REvent.allowPort 25565 "0.0.0.0" ∈
        (create_container "moby" "srv-1" "alpine:3" "" [] 512 1 "/var/srv-1"
          25565 (some "bridge")
          { runResult := .ok ⟨true, "deadbeef\n", ""⟩,
            inspectResult := .ok ⟨false, "", "no such container"⟩,
            firewallResult := .ok () }).snd := by
  refine ⟨⟨rfl, rfl, rfl, rfl⟩, ?_⟩
  exact c10_ip_fallback "moby" "srv-1" "alpine:3" "" [] 512 1 "/var/srv-1"
    25565 (some "bridge")
    { runResult := .ok ⟨true, "deadbeef\n", ""⟩,
      inspectResult := .ok ⟨false, "", "no such container"⟩,
      firewallResult := .ok () }
    ⟨true, "deadbeef\n", ""⟩ rfl rfl
    (Or.inr ⟨⟨false, "", "no such container"⟩, rfl, rfl⟩)

/-- C3 counterexample: the list operation, on a CLI failure with stderr
"boom", returns the fixed text "Failed to list containers", which does
not carry the stderr output — refuting the claim that every operation's
error text carries stderr. -/
theorem c3_counterexample :
    list_containers (fun _ => none) ⟨false, "", "boom"⟩
      = .error (.containerError "Failed to list containers")
    ∧ containsSub "Failed to list containers" "boom" = false := by
  exact ⟨rfl, by decide⟩

/-- C3 amended: on nonzero exit with non-empty stderr, create, start,
stop, kill, remove, logs and exec return a `ContainerError` whose text
carries the stderr output, while list, stats and inspect-ip return fixed
messages without it. -/
theorem c3_stderr_amended
    (ns container_id image startup_command : String)
    (env : List (String × String)) (memory_mb cpu_cores : Nat)
    (data_dir : String) (port : Nat) (network_mode : Option String)
    (w : CreateWorld)
    (parseI : String → Option ContainerInfo)
    (parseS : String → Option ContainerStats)
    (out : CmdOutput)
    (hfail : out.success = false) (hstderr : out.stderr ≠ "")
    (hrun : w.runResult = .ok out) :
    (create_container ns container_id image startup_command env memory_mb
        cpu_cores data_dir port network_mode w).fst
      = .error (.containerError ("Container creation failed: " ++ out.stderr))
    ∧ start_container out
      = .error (.containerError ("Failed to start container: " ++ out.stderr))
    ∧ stop_container out
      = .error (.containerError ("Failed to stop container: " ++ out.stderr))
    ∧ kill_container out
      = .error (.containerError ("Failed to kill container: " ++ out.stderr))
    ∧ remove_container out
      = .error (.containerError ("Failed to remove container: " ++ out.stderr))
    ∧ get_logs out
      = .error (.containerError ("Failed to get logs: " ++ out.stderr))
    ∧ exec_in_container out
      = .error (.containerError ("Exec failed: " ++ out.stderr))
    ∧ list_containers parseI out
      = .error (.containerError "Failed to list containers")
    ∧ get_stats parseS out
      = .error (.containerError "Failed to get stats")
    ∧ (get_container_ip ns container_id (.ok out)).fst
      = .error (.containerError "Failed to get container IP") := by
  refine ⟨?_, ?_, ?_, ?_, ?_, ?_, ?_, ?_, ?_, ?_⟩
  · simp [create_container, hrun, hfail]
  · simp [start_container, hfail]
  · simp [stop_container, hfail]
  · simp [kill_container, hfail]
  · simp [remove_container, hfail]
  · simp [get_logs, hfail]
  · simp [exec_in_container, hfail]
  · simp [list_containers, hfail]
  · simp [get_stats, hfail]
  · simp [get_container_ip, hfail]

/-- Witness for `c3_stderr_amended` at a concrete failing output. -/
theorem c3_stderr_amended_witness :
    ((⟨false, "", "boom"⟩ : CmdOutput).success = false
      ∧ (⟨false, "", "boom"⟩ : CmdOutput).stderr ≠ ""
      ∧ (({ runResult := .ok ⟨false, "", "boom"⟩,
            inspectResult := .ok ⟨true, "", ""⟩,
            firewallResult := .ok () } : CreateWorld).runResult
          = .ok ⟨false, "", "boom"⟩))
    ∧ start_container ⟨false, "", "boom"⟩
      = .error (.containerError "Failed to start container: boom")
    ∧ get_stats (fun _ => none) ⟨false, "", "boom"⟩
      = .error (.containerError "Failed to get stats") := by
  refine ⟨⟨rfl, by decide, rfl⟩, ?_, ?_⟩
  · exact (c3_stderr_amended "moby" "srv-1" "alpine:3" "" [] 512 1
      "/var/srv-1" 25565 none
      { runResult := .ok ⟨false, "", "boom"⟩,
        inspectResult := .ok ⟨true, "", ""⟩, firewallResult := .ok () }
      (fun _ => none) (fun _ => none) ⟨false, "", "boom"⟩
      rfl (by decide) rfl).2.1
  · exact (c3_stderr_amended "moby" "srv-1" "alpine:3" "" [] 512 1
      "/var/srv-1" 25565 none
      { runResult := .ok ⟨false, "", "boom"⟩,
        inspectResult := .ok ⟨true, "", ""⟩, firewallResult := .ok () }
      (fun _ => none) (fun _ => none) ⟨false, "", "boom"⟩
      rfl (by decide) rfl).2.2.2.2.2.2.2.2.1

/-- A well-formed one-line stats JSON object as `nerdctl stats --format
json` emits it. -/
def statsStubLine : String :=
  "\x7b\"ID\":\"abc\",\"Name\":\"srv-1\",\"CPUPerc\":\"1.5%\",\"MemUsage\":\"10MiB / 512MiB\",\"NetIO\":\"0B / 0B\",\"BlockIO\":\"0B / 0B\"\x7d"

/-- The sample `statsStubLine` denotes. -/
def statsStubSample : ContainerStats :=
  ⟨"abc", "srv-1", "1.5%", "10MiB / 512MiB", "0B / 0B", "0B / 0B"⟩

/-- Models `serde_json::from_str::<ContainerStats>` on the inputs under
consideration: it accepts the well-formed object `statsStubLine` and
rejects anything else — in particular a blank line, as serde_json rejects
empty input. -/
def serde_stats_stub (line : String) : Option ContainerStats :=
  if line = statsStubLine then some statsStubSample else none

/-- C4 counterexample: on CLI output consisting of a leading blank line
followed by a well-formed stats object, the stats operation feeds the
blank first line to the decoder and returns a decode error, whereas the
claimed behaviour (skip blank lines, parse the first non-empty line)
would return the sample. -/
theorem c4_counterexample :
    get_stats serde_stats_stub ⟨true, "\n" ++ statsStubLine, ""⟩
      = .error .decode
    ∧ get_stats_spec serde_stats_stub ⟨true, "\n" ++ statsStubLine, ""⟩
      = .ok statsStubSample := by
  exact ⟨rfl, rfl⟩

/-- C4 amended: the stats operation parses the FIRST line of the
newline-delimited output (the line iterator drops a trailing final
newline); this coincides with parsing the first non-empty line whenever
the first line is not blank, but a blank first line is not skipped: it is
handed to the decoder (which rejects it) and yields a decode error; if
the output has no lines at all, a no-stats error is returned (that case
is covered by the equality with `get_stats_spec`, both sides erroring). -/
theorem c4_stats_first_line
    (parse : String → Option ContainerStats) (out : CmdOutput)
    (hok : out.success = true) :
    ((∀ l, (rustLines out.stdout).head? = some l → rustTrim l ≠ "") →
      get_stats parse out = get_stats_spec parse out)
    ∧ (∀ l ls, rustLines out.stdout = l :: ls → rustTrim l = "" →
        parse l = none → get_stats parse out = .error .decode) := by
  constructor
  · intro h
    cases hl : rustLines out.stdout with
    | nil => simp [get_stats, get_stats_spec, hok, hl]
    | cons l ls =>
      have hne := h l (by simp [hl])
      simp [get_stats, get_stats_spec, hok, hl, hne]
  · intro l ls hl ht hp
    simp [get_stats, hok, hl, hp]

/-- Witness for `c4_stats_first_line`: a stats output whose single line is
followed by a trailing newline is parsed, and code and spec readings
agree there. -/
theorem c4_stats_first_line_witness :
    ((⟨true, statsStubLine ++ "\n", ""⟩ : CmdOutput).success = true
      ∧ (∀ l, (rustLines (statsStubLine ++ "\n")).head? = some l →
          rustTrim l ≠ ""))
    ∧ get_stats serde_stats_stub ⟨true, statsStubLine ++ "\n", ""⟩
        = get_stats_spec serde_stats_stub ⟨true, statsStubLine ++ "\n", ""⟩ := by
  have hlines : rustLines (statsStubLine ++ "\n") = [statsStubLine] := by
    decide
  have hblank : ∀ l, (rustLines (statsStubLine ++ "\n")).head? = some l →
      rustTrim l ≠ "" := by
    intro l hl
    rw [hlines] at hl
    simp at hl
    subst hl
    decide
  refine ⟨⟨rfl, hblank⟩, ?_⟩
  exact (c4_stats_first_line serde_stats_stub
    ⟨true, statsStubLine ++ "\n", ""⟩ rfl).1 hblank

/-- Deserialize every line of a list in order, failing on the first
malformed one (the specification's reading of the list parse). -/
def parse_all (parse : String → Option ContainerInfo) :
    List String → Option (List ContainerInfo)
  | [] => some []
  | l :: ls =>
    match parse l with
    | none => none
    | some c =>
      match parse_all parse ls with
      | none => none
      | some cs => some (c :: cs)

/-- The list operation as the specification words it: on success, every
non-blank line of the newline-delimited output is deserialized, blank
lines are skipped, the summaries come back in line order, and any
malformed non-blank line yields a decode error. -/
def list_containers_spec (parse : String → Option ContainerInfo)
    (out : CmdOutput) : Except AgentError (List ContainerInfo) :=
  if out.success then
    match parse_all parse
        ((rustLines out.stdout).filter (fun l => rustTrim l ≠ "")) with
    | some cs => .ok cs
    | none => .error .decode
  else .error (.containerError "Failed to list containers")

/-- The source's line loop equals filtering out blank lines and then
deserializing all remaining lines in order. -/
theorem collect_lines_eq (parse : String → Option ContainerInfo)
    (ls : List String) :
    collect_lines parse ls =
      match parse_all parse (ls.filter (fun l => rustTrim l ≠ "")) with
      | some cs => Except.ok cs
      | none => Except.error AgentError.decode := by
  induction ls with
  | nil => rfl
  | cons l ls ih =>
    by_cases h : rustTrim l = ""
    · have hfc : (l :: ls).filter (fun x => rustTrim x ≠ "")
          = ls.filter (fun x => rustTrim x ≠ "") := by
        simp [List.filter_cons, h]
      simp only [collect_lines]
      rw [if_pos h, ih, hfc]
    · have hfc : (l :: ls).filter (fun x => rustTrim x ≠ "")
          = l :: ls.filter (fun x => rustTrim x ≠ "") := by
        simp [List.filter_cons, h]
      cases hp : parse l with
      | none =>
        simp only [collect_lines]
        rw [if_neg h, hp, hfc]
        simp only [parse_all, hp]
      | some c =>
        simp only [collect_lines]
        rw [if_neg h, hp, hfc, ih]
        simp only [parse_all, hp]
        cases hm : parse_all parse (ls.filter (fun x => rustTrim x ≠ "")) with
        | none => rfl
        | some cs => rfl

/-- C5: the list operation parses each non-blank line of the
newline-delimited output into a summary, skipping blank lines, returns
the summaries in line order, and returns a decode error when any
non-blank line is malformed (the CLI failure path keeps its fixed
message). -/
theorem c5_list_lines (parse : String → Option ContainerInfo)
    (out : CmdOutput) :
    list_containers parse out = list_containers_spec parse out := by
  cases hs : out.success with
  | false => simp [list_containers, list_containers_spec, hs]
  | true =>
    simp only [list_containers, list_containers_spec, hs, if_true]
    exact collect_lines_eq parse (rustLines out.stdout)

/-- C6: package manager detection probes apt-get, yum, dnf, pacman,
zypper in that order, returns the family of the first binary found, and
when none is found, provisioning aborts with the no-package-manager
error after the five probes and performs nothing else. -/
theorem c6_detect_package_manager (f : String → Bool) :
    (detect_package_manager f).fst =
      (match managers.find? (fun m => f m.fst) with
       | some m => Except.ok m.snd
       | none => Except.error "No supported package manager found")
    ∧ ∀ w : SetupWorld,
        (∀ c ∈ ["apt-get", "yum", "dnf", "pacman", "zypper"],
          w.whichOk c = false) →
        initializeSystem w =
          (.error "No supported package manager found",
           [SEvent.which "apt-get", SEvent.which "yum", SEvent.which "dnf",
            SEvent.which "pacman", SEvent.which "zypper"]) := by
  constructor
  · cases h1 : f "apt-get" <;> cases h2 : f "yum" <;> cases h3 : f "dnf" <;>
      cases h4 : f "pacman" <;> cases h5 : f "zypper" <;>
      simp [detect_package_manager, managers, detect_loop, List.find?,
        h1, h2, h3, h4, h5]
  · intro w h
    have h1 := h "apt-get" (by simp)
    have h2 := h "yum" (by simp)
    have h3 := h "dnf" (by simp)
    have h4 := h "pacman" (by simp)
    have h5 := h "zypper" (by simp)
    simp [initializeSystem, detect_package_manager, managers, detect_loop,
      h1, h2, h3, h4, h5]

/-- Witness for `c6_detect_package_manager` on a host with no package
manager at all. -/
theorem c6_detect_package_manager_witness :
    (∀ c ∈ ["apt-get", "yum", "dnf", "pacman", "zypper"],
      ({ whichOk := fun _ => false,
         rt := ⟨false, ⟨true, "", ""⟩, ⟨true, "", ""⟩, false,
               ⟨true, "", ""⟩, "amd64"⟩,
         cni := ⟨.ok (), true, ⟨true, "", ""⟩, ⟨true, "", ""⟩, .ok ()⟩,
         dhcp := ⟨true, true, .ok (), ⟨true, "", ""⟩, true, .ok (),
                  ⟨true, "", ""⟩, ⟨true, "", ""⟩, ⟨true, "", ""⟩, .ok (),
                  true, "amd64"⟩ } : SetupWorld).whichOk c = false)
    ∧ (initializeSystem
        { whichOk := fun _ => false,
          rt := ⟨false, ⟨true, "", ""⟩, ⟨true, "", ""⟩, false,
                ⟨true, "", ""⟩, "amd64"⟩,
          cni := ⟨.ok (), true, ⟨true, "", ""⟩, ⟨true, "", ""⟩, .ok ()⟩,
          dhcp := ⟨true, true, .ok (), ⟨true, "", ""⟩, true, .ok (),
                   ⟨true, "", ""⟩, ⟨true, "", ""⟩, ⟨true, "", ""⟩, .ok (),
                   true, "amd64"⟩ }).fst
        = .error "No supported package manager found" := by
  refine ⟨fun c _ => rfl, ?_⟩
  rw [((c6_detect_package_manager (fun _ => false)).2 _ (fun c _ => rfl))]

/-- C7: the provisioner is idempotent — when the CNI config file already
exists, the CNI step returns ok having only ensured the directory and
checked the path (no write); when a `dhcp daemon` process is already
running, the DHCP step returns ok after the single process probe (no
plugin install, no unit write, no spawn). -/
theorem c7_provisioner_idempotent :
    (∀ w : CniWorld, w.mkdirNetD = .ok () → w.configExists = true →
      setup_cni_networking w =
        (.ok (), [SEvent.createDirAll "/etc/cni/net.d",
                  SEvent.pathCheck "/etc/cni/net.d/mc-lan.conflist"]))
    ∧ (∀ w : DhcpWorld, w.running1 = true →
        ensure_dhcp_daemon w = (.ok (), [SEvent.pgrep "dhcp daemon"])) := by
  constructor
  · intro w h1 h2
    simp [setup_cni_networking, h1, h2]
  · intro w h1
    simp [ensure_dhcp_daemon, h1]

/-- Witness for `c7_provisioner_idempotent` on an already-provisioned
host. -/
theorem c7_provisioner_idempotent_witness :
    ((⟨.ok (), true, ⟨true, "", ""⟩, ⟨true, "", ""⟩, .ok ()⟩ :
        CniWorld).mkdirNetD = .ok ()
      ∧ (⟨.ok (), true, ⟨true, "", ""⟩, ⟨true, "", ""⟩, .ok ()⟩ :
          CniWorld).configExists = true
      ∧ (⟨true, true, .ok (), ⟨true, "", ""⟩, true, .ok (), ⟨true, "", ""⟩,
          ⟨true, "", ""⟩, ⟨true, "", ""⟩, .ok (), true, "amd64"⟩ :
            DhcpWorld).running1 = true)
    ∧ setup_cni_networking
        ⟨.ok (), true, ⟨true, "", ""⟩, ⟨true, "", ""⟩, .ok ()⟩ =
        (.ok (), [SEvent.createDirAll "/etc/cni/net.d",
                  SEvent.pathCheck "/etc/cni/net.d/mc-lan.conflist"])
    ∧ ensure_dhcp_daemon
        ⟨true, true, .ok (), ⟨true, "", ""⟩, true, .ok (), ⟨true, "", ""⟩,
         ⟨true, "", ""⟩, ⟨true, "", ""⟩, .ok (), true, "amd64"⟩ =
        (.ok (), [SEvent.pgrep "dhcp daemon"]) := by
  refine ⟨⟨rfl, rfl, rfl⟩, ?_, ?_⟩
  · exact c7_provisioner_idempotent.1 _ rfl rfl
  · exact c7_provisioner_idempotent.2 _ rfl

/-- C8: when the provisioning sequence fails, main logs the two warnings
and continues: it still constructs the agent and spawns the websocket,
telemetry and HTTP tasks, returning ok — the failure is never fatal. -/
theorem c8_provision_nonfatal (w : MainWorld) (e : String)
    (hc : w.configResult = .ok ()) (hp : w.provisionResult = .error e) :
    mainProgram w =
      (.ok (), [MainEvent.loadConfig, MainEvent.provision,
        MainEvent.warn ("System setup encountered issues: " ++ e),
        MainEvent.warn "Continuing with existing configuration...",
        MainEvent.createAgent, MainEvent.spawnWebsocketTask,
        MainEvent.spawnHealthTask, MainEvent.spawnHttpTask]) := by
  simp [mainProgram, hc, hp, agentRunEvents]

/-- Witness for `c8_provision_nonfatal` at a concrete provisioning
failure. -/
theorem c8_provision_nonfatal_witness :
    (({ configResult := .ok (), provisionResult := .error "curl: not found" } :
        MainWorld).configResult = .ok ()
      ∧ ({ configResult := .ok (),
           provisionResult := .error "curl: not found" } :
          MainWorld).provisionResult = .error "curl: not found")
    ∧ (mainProgram { configResult := .ok (),
                     provisionResult := .error "curl: not found" }).fst
        = .ok () := by
  refine ⟨⟨rfl, rfl⟩, ?_⟩
  rw [c8_provision_nonfatal
    { configResult := .ok (), provisionResult := .error "curl: not found" }
    "curl: not found" rfl rfl]

/-- C9: provisioning completes, in program order, before the agent spawns
the websocket, telemetry and HTTP tasks: either configuration loading
fails (and nothing is spawned), or the event trace has the awaited
provisioning completion at position one, followed only by warnings before
agent construction and the three task spawns. -/
theorem c9_provision_before_connect (w : MainWorld) :
    (∃ e, w.configResult = .error e
      ∧ (mainProgram w).snd = [MainEvent.loadConfig])
    ∨ (∃ warns, (mainProgram w).snd =
        [MainEvent.loadConfig, MainEvent.provision] ++ warns
          ++ [MainEvent.createAgent, MainEvent.spawnWebsocketTask,
              MainEvent.spawnHealthTask, MainEvent.spawnHttpTask]
        ∧ ∀ ev ∈ warns, ∃ m, ev = MainEvent.warn m) := by
  rcases hc : w.configResult with e | u
  · exact Or.inl ⟨e, rfl, by simp [mainProgram, hc]⟩
  · rcases hp : w.provisionResult with e | u2
    · refine Or.inr
        ⟨[MainEvent.warn ("System setup encountered issues: " ++ e),
          MainEvent.warn "Continuing with existing configuration..."],
         by simp [mainProgram, hc, hp, agentRunEvents], ?_⟩
      intro ev hev
      simp at hev
      rcases hev with h | h <;> exact ⟨_, h⟩
    · exact Or.inr ⟨[], by simp [mainProgram, hc, hp, agentRunEvents],
        by simp⟩
